import Mathlib

/-!
Shallow embedding of the `local-ai-manager` repository (llama-server
supervisor).  Pure parts of the Python code are translated to Lean
functions; the stateful server lifecycle is modelled by explicit state
passing over a `World` record that captures the PID record file, the
process table as seen through psutil, and the HTTP health endpoint.
Python exceptions are modelled with `Except`, where the error value
carries the world at the point the exception escaped the modelled
fragment.
-/

namespace LocalAIManager

/-- Decides whether the first list starts the second (helper for the
substring tests below). -/
def startsList : List Char → List Char → Bool
  | [], _ => true
  | _ :: _, [] => false
  | a :: as, b :: bs => a = b && startsList as bs

/-- Decides whether `needle` occurs contiguously inside `hay`: the
meaning of Python's `in` operator on strings. -/
def containsSeg (needle : List Char) : List Char → Bool
  | [] => needle.isEmpty
  | b :: bs => startsList needle (b :: bs) || containsSeg needle bs

/-- Case-insensitive substring test: models Python `needle in hay.lower()`
for an already-lowercase needle (used as `"llama" in process.name().lower()`). -/
def hasLlama (s : String) : Bool :=
  containsSeg "llama".toList (s.toList.map Char.toLower)

/-- Case-insensitive substring test used to model
`re.search(pattern, name, re.IGNORECASE)` for the fragment where the
pattern is a regex-literal string (no metacharacters); on that fragment
`re.search` is exactly case-insensitive substring search. -/
def lowerContains (needle hay : String) : Bool :=
  containsSeg (needle.toList.map Char.toLower) (hay.toList.map Char.toLower)

/-- Numeric value of a digit string, as `int()` computes it. -/
def digitsToNat (ds : List Char) : Nat :=
  ds.foldl (fun n c => n * 10 + (c.toNat - 48)) 0

/-- Whitespace as `str.strip()` sees it (the forms that occur here). -/
def isSpaceChar (c : Char) : Bool :=
  c = ' ' ∨ c = '\t' ∨ c = '\n' ∨ c = '\r'

/-- Models `int(content.strip())` on the contents the manager itself
writes to the PID record (decimal digit strings): strips surrounding
whitespace and parses a non-empty all-digit string; anything else is the
`ValueError` path (sign-prefixed forms are excluded - psutil rejects
negative pids with `ValueError` as well, landing in the same handler). -/
def pyInt? (s : String) : Option Nat :=
  let cs := ((s.toList.dropWhile isSpaceChar).reverse.dropWhile
    isSpaceChar).reverse
  if cs ≠ [] ∧ cs.all Char.isDigit then some (digitsToNat cs) else none

/-- Translation of `models.py` `ModelDefinition` (pydantic).  Python ints
are `Int`, Python floats (never computed with by the manager) are carried
as `Rat`, `str | None` is `Option String`.  Defaults are the pydantic
field defaults. -/
structure ModelDefinition where
  id : String
  name : String
  description : String := ""
  filename : Option String := none
  filename_pattern : Option String := none
  ctx_size : Int := 8192
  n_gpu_layers : Int := 99
  threads : Int := 8
  batch_size : Int := 4096
  ubatch_size : Int := 1024
  flash_attn : Bool := true
  mlock : Bool := true
  mmap : Bool := true
  cont_batching : Bool := true
  cache_type_k : Option String := none
  cache_type_v : Option String := none
  temperature : Rat := 3/5
  top_p : Rat := 19/20
  top_k : Int := 40
  cache_dir : Option String := none
  save_cache_on_exit : Bool := true
  priority : Int := 5
  tags : List String := []
deriving DecidableEq, Repr

/-- Translation of `models.py` `ServerConfig` (pydantic).  Paths are
carried as strings.  Note the model has no `start_timeout`,
`create_no_window` or `auto_shutdown_on_exit` fields even though
`server.py` reads them from `self.config`; accessing them raises
`AttributeError` at runtime, which the embedding reflects where those
reads occur. -/
structure ServerConfig where
  host : String := "127.0.0.1"
  port : Int := 8080
  llama_server_path : String
  models_dir : String
  cache_dir : String
  log_dir : String
  auto_start : Bool := false
  default_model : Option String := none
deriving DecidableEq, Repr

/-- Translation of `ModelDefinition.matches_file` (`models.py`): exact
filename match when `filename` is set, otherwise a case-insensitive
`re.search` of `filename_pattern` against the file name (embedded on the
regex-literal fragment). -/
def matches_file (d : ModelDefinition) (fname : String) : Bool :=
  match d.filename with
  | some f => fname = f
  | none =>
    match d.filename_pattern with
    | some p => lowerContains p fname
    | none => false

/-- Conditional `--cache-type-k` arguments of `_build_args`
(`server.py`): emitted when `model_def.cache_type_k` is Python-truthy
(not `None` and not the empty string); the value is the string itself
(the `.value` branch is for enum members, strings pass through). -/
def cacheTypeKArgs (d : ModelDefinition) : List String :=
  match d.cache_type_k with
  | some v => if v ≠ "" then ["--cache-type-k", v] else []
  | none => []

/-- Conditional `--cache-type-v` arguments of `_build_args` (`server.py`). -/
def cacheTypeVArgs (d : ModelDefinition) : List String :=
  match d.cache_type_v with
  | some v => if v ≠ "" then ["--cache-type-v", v] else []
  | none => []

/-- Conditional `--flash-attn on` arguments of `_build_args` (`server.py`). -/
def flashAttnArgs (d : ModelDefinition) : List String :=
  if d.flash_attn then ["--flash-attn", "on"] else []

/-- Conditional `--model-cache-dir` arguments of `_build_args`
(`server.py`), emitted when `model_def.cache_dir` is Python-truthy. -/
def cacheDirArgs (d : ModelDefinition) : List String :=
  match d.cache_dir with
  | some v => if v ≠ "" then ["--model-cache-dir", v] else []
  | none => []

/-- Extra arguments appended by `_build_args` when `extra_args` is
Python-truthy (not `None`, not empty). -/
def extraArgsList (extra_args : Option (List String)) : List String :=
  match extra_args with
  | some ea => ea
  | none => []

/-- Unconditional head of the argument list built by `_build_args`
(`server.py` lines 212-232). -/
def coreArgs (cfg : ServerConfig) (d : ModelDefinition) (model_path : String) :
    List String :=
  [cfg.llama_server_path,
   "--model", model_path,
   "--alias", d.id,
   "--ctx-size", toString d.ctx_size,
   "--n-gpu-layers", toString d.n_gpu_layers,
   "--threads", toString d.threads,
   "--batch-size", toString d.batch_size,
   "--ubatch-size", toString d.ubatch_size,
   "--host", cfg.host,
   "--port", toString cfg.port]

/-- Translation of `LlamaServerManager._build_args` (`server.py`).  The
`use_cache` parameter is accepted but never read, exactly as in the
source.  When `available_models` is Python-truthy the source calls
`_add_speculative_decoding_args`, which reads `model_def.draft_model_id`;
`ModelDefinition` defines no such field, so that read raises
`AttributeError` - embedded as the `Except.error` branch. -/
def build_args (cfg : ServerConfig) (d : ModelDefinition) (model_path : String)
    (use_cache : Bool) (extra_args : Option (List String))
    (available_models : Option (List (String × ModelDefinition × String))) :
    Except Unit (List String) :=
  let args := coreArgs cfg d model_path
  let args := args ++ cacheTypeKArgs d
  let args := args ++ cacheTypeVArgs d
  let args := args ++ flashAttnArgs d
  let args := args ++ cacheDirArgs d
  let args := args ++ extraArgsList extra_args
  match available_models with
  | some ms => if ms ≠ [] then Except.error () else Except.ok args
  | none => Except.ok args

/-- Status of one process as observed through psutil: the result of
`process.is_running()` and of `process.name()`. -/
structure ProcInfo where
  alive : Bool
  name : String
deriving DecidableEq, Repr

/-- State threaded through the supervisor's lifecycle operations:
the PID record file (`server.pid`) contents, the process table as
psutil sees it (`none` means `psutil.Process(pid)` raises
`NoSuchProcess`), whether `GET /health` currently succeeds with
status 200, and the pid listening on the configured port (for
`_kill_by_port`). -/
structure World where
  pidFile : Option String
  procs : Nat → Option ProcInfo
  healthOk : Bool
  portOwner : Option Nat

/-- Translation of `LlamaServerManager.is_running` (`server.py` lines
36-64).  When the PID record exists: unparseable content or a missing
process self-heals (deletes the record) and falls through to the HTTP
probe; a process that is not running, or whose name does not contain
"llama", self-heals and returns `false` directly; otherwise `true`.
With no record, the HTTP health probe decides.  Returns the result and
the updated world. -/
def is_running (w : World) : Bool × World :=
  match w.pidFile with
  | some content =>
    match pyInt? content with
    | some pid =>
      match w.procs pid with
      | some info =>
        if ¬ info.alive then (false, {w with pidFile := none})
        else if ¬ hasLlama info.name then (false, {w with pidFile := none})
        else (true, w)
      | none => ({w with pidFile := none}.healthOk, {w with pidFile := none})
    | none => ({w with pidFile := none}.healthOk, {w with pidFile := none})
  | none => (w.healthOk, w)

/-- Removes `pid` from the process table: the observable effect of
terminating the process (and its children) and waiting on it. -/
def terminateTree (w : World) (pid : Nat) : World :=
  {w with procs := fun q => if q = pid then none else w.procs q}

/-- Translation of `LlamaServerManager._kill_by_port` (`server.py`):
finds the LISTEN socket on the configured port and terminates its owner
when that process is named exactly `llama-server.exe`. -/
def kill_by_port (w : World) : Bool × World :=
  match w.portOwner with
  | some pid =>
    match w.procs pid with
    | some info =>
      if info.name.toLower = "llama-server.exe" then (true, terminateTree w pid)
      else (false, w)
    | none => (false, w)
  | none => (false, w)

/-- Translation of `LlamaServerManager.stop` (`server.py` lines
102-159).  `save_cache` selects between the two termination branches of
the source, whose observable effect on the modelled state is the same
(the process tree rooted at the pid is terminated); cache contents are
outside the model.  A `psutil.Process(pid)` failure inside the `try`
block is caught by the source's `except Exception` and yields `False`
without unlinking. -/
def stop (save_cache : Bool) (w : World) : Bool × World :=
  let rw := is_running w
  if ¬ rw.1 then (true, rw.2)
  else
    let pid? : Option Nat :=
      match rw.2.pidFile with
      | some c => pyInt? c
      | none => none
    match pid? with
    | none => kill_by_port rw.2
    | some pid =>
      match rw.2.procs pid with
      | none => (false, rw.2)
      | some _ =>
        let w2 := terminateTree rw.2 pid
        (true, {w2 with pidFile := none})

/-- Environment of one `start` attempt: whether `subprocess.Popen`
succeeds and with which pid, the psutil view of the spawned process from
then on (its state by the time any later lifecycle call inspects it),
and whether the health endpoint answers 200 within the polling window of
`wait_for_ready`. -/
structure SpawnEnv where
  launch : Option Nat
  fate : Option ProcInfo
  becomesHealthy : Bool

/-- Translation of `LlamaServerManager._start_background` (`server.py`
lines 301-331).  On win32 the source reads `self.config.create_no_window`
before anything else; `ServerConfig` has no such field, so that read
raises `AttributeError` (`Except.error`).  A `Popen` failure is caught
locally and yields `False`.  Otherwise the spawned pid is written to the
PID record; then the source computes
`timeout if timeout is not None else self.config.start_timeout` - and
`ServerConfig` has no `start_timeout` field either, so with `timeout =
None` an `AttributeError` escapes after the record was written.  With an
explicit timeout, readiness failure tears the server down via `stop()`
(return value ignored) and yields `False`. -/
def start_background (env : SpawnEnv) (platformWin32 : Bool)
    (timeout : Option Nat) (w : World) : Except World (Bool × World) :=
  if platformWin32 then Except.error w
  else
    match env.launch with
    | none => Except.ok (false, w)
    | some pid =>
      let w1 : World :=
        {w with pidFile := some (toString pid),
                procs := fun q => if q = pid then env.fate else w.procs q}
      match timeout with
      | some _ =>
        if env.becomesHealthy then Except.ok (true, w1)
        else Except.ok (false, (stop false w1).2)
      | none => Except.error w1

/-- Translation of `LlamaServerManager._start_foreground` (`server.py`).
The win32 branch raises `AttributeError` on the missing
`create_no_window` field; a `Popen` failure is uncaught here and
propagates to `start`'s handler. -/
def start_foreground (env : SpawnEnv) (platformWin32 : Bool) (w : World) :
    Except World (Bool × World) :=
  if platformWin32 then Except.error w
  else
    match env.launch with
    | none => Except.error w
    | some pid =>
      Except.ok (true,
        {w with pidFile := some (toString pid),
                procs := fun q => if q = pid then env.fate else w.procs q})

/-- Translation of `LlamaServerManager.start` (`server.py` lines
161-201): no-op success when `is_running()` reports true, failure when
the model path does not exist, then argument building (outside the
`try`, so its `AttributeError` propagates to the caller), then the
background or foreground launch inside `try/except Exception`, whose
handler returns `False` with whatever state the raise left behind. -/
def start (cfg : ServerConfig) (env : SpawnEnv) (platformWin32 : Bool)
    (d : ModelDefinition) (pathExists : Bool) (model_path : String)
    (background use_cache : Bool) (extra_args : Option (List String))
    (timeout : Option Nat)
    (available_models : Option (List (String × ModelDefinition × String)))
    (w : World) : Except World (Bool × World) :=
  let rw := is_running w
  if rw.1 then Except.ok (true, rw.2)
  else if ¬ pathExists then Except.ok (false, rw.2)
  else
    match build_args cfg d model_path use_cache extra_args available_models with
    | Except.error _ => Except.error rw.2
    | Except.ok _ =>
      if background then
        match start_background env platformWin32 timeout rw.2 with
        | Except.error w2 => Except.ok (false, w2)
        | Except.ok r => Except.ok r
      else
        match start_foreground env platformWin32 rw.2 with
        | Except.error w2 => Except.ok (false, w2)
        | Except.ok r => Except.ok r

/-- One binding of the registry's `_available` dict: model id, matched
definition, resolved path of the matched GGUF file.  The Python dict is
modelled as an association list in insertion order, which is exactly the
iteration order the source observes. -/
abbrev AvailEntry := String × ModelDefinition × String

/-- Insertion into a Python dict: an existing key keeps its position and
gets the new value, a new key is appended. -/
def dictInsert (k : String) (v : ModelDefinition × String)
    (d : List AvailEntry) : List AvailEntry :=
  if d.any (fun kv => kv.1 = k) then
    d.map (fun kv => if kv.1 = k then (k, v) else kv)
  else d ++ [(k, v)]

/-- Translation of `ModelRegistry._find_matching_file` (`registry.py`):
first file of the directory's `*.gguf` glob matched by the definition
(path resolution is the identity in the model). -/
def find_matching_file (d : ModelDefinition) (ggufFiles : List String) :
    Option String :=
  ggufFiles.find? (matches_file d)

/-- One iteration of the `_scan` loop (`registry.py` lines 27-30): a
definition that matches a file is inserted into `_available` under its
id. -/
def scanStep (ggufFiles : List String) (avail : List AvailEntry)
    (d : ModelDefinition) : List AvailEntry :=
  match find_matching_file d ggufFiles with
  | some p => dictInsert d.id (d, p) avail
  | none => avail

/-- Translation of `ModelRegistry._scan` (`registry.py`): no-op when the
models directory does not exist, otherwise folds the scan loop over the
configured model list, mutating `_available` in place. -/
def scan (dirExists : Bool) (models : List ModelDefinition)
    (ggufFiles : List String) (avail : List AvailEntry) : List AvailEntry :=
  if ¬ dirExists then avail
  else models.foldl (scanStep ggufFiles) avail

/-- Translation of `ModelRegistry.refresh` (`registry.py` lines 73-76):
`self._available.clear()` followed by `self._scan()`; the resulting map
is the scan started from the empty dict. -/
def refresh (dirExists : Bool) (models : List ModelDefinition)
    (ggufFiles : List String) (avail : List AvailEntry) : List AvailEntry :=
  let cleared : List AvailEntry := []
  scan dirExists models ggufFiles cleared

/-- States of `_available` observable during a scan that starts from
`avail`: the state before each loop iteration and the final state.
These are exactly the intermediate dict contents a concurrent reader of
the in-place mutation could observe. -/
def traceFrom (ggufFiles : List String) (avail : List AvailEntry) :
    List ModelDefinition → List (List AvailEntry)
  | [] => [avail]
  | d :: ds => avail :: traceFrom ggufFiles (scanStep ggufFiles avail d) ds

/-- States of `_available` observable during `refresh()`: the state
right after `clear()` (the empty dict) followed by the states of the
in-place rescan. -/
def refreshTrace (dirExists : Bool) (models : List ModelDefinition)
    (ggufFiles : List String) : List (List AvailEntry) :=
  if dirExists then traceFrom ggufFiles [] models else [[]]

/-- Translation of `ModelRegistry.is_model_available` (`registry.py`). -/
def is_model_available (avail : List AvailEntry) (model_id : String) : Bool :=
  avail.any (fun kv => kv.1 = model_id)

/-- Lookup `self._available[model_id]` on the dict model. -/
def availLookup (avail : List AvailEntry) (model_id : String) :
    Option (ModelDefinition × String) :=
  (avail.find? (fun kv => kv.1 = model_id)).map (fun kv => kv.2)

/-- Stable insertion used to model Python's `list.sort(key=...)`: the
new element is placed after every element with a strictly smaller key
and before the first element with an equal or larger key. -/
def insertByPriority (x : AvailEntry) : List AvailEntry → List AvailEntry
  | [] => [x]
  | h :: t =>
    if h.2.1.priority < x.2.1.priority then h :: insertByPriority x t
    else x :: h :: t

/-- Model of `available.sort(key=lambda x: x[1].priority)`
(`registry.py` line 66).  Python's sort is exactly the stable sort by
the key, and a stable sorted permutation is unique, so this insertion
sort has the same value. -/
def sortByPriority : List AvailEntry → List AvailEntry
  | [] => []
  | x :: xs => insertByPriority x (sortByPriority xs)

/-- Translation of `ModelRegistry.get_auto_selected_model`
(`registry.py` lines 51-67).  `if default_id and ...` uses Python
truthiness, so a default of `None` or of the empty string skips the
default branch.  Otherwise the available list (in declaration order) is
sorted stably by priority and its first element returned, or `None`
when it is empty. -/
def get_auto_selected_model (default_model : Option String)
    (avail : List AvailEntry) : Option AvailEntry :=
  let viaDefault : Option AvailEntry :=
    match default_model with
    | some did =>
      if did ≠ "" ∧ is_model_available avail did then
        match availLookup avail did with
        | some dp => some (did, dp)
        | none => none
      else none
    | none => none
  match viaDefault with
  | some e => some e
  | none =>
    if avail.isEmpty then none
    else (sortByPriority avail).head?

/-- One step of the claim-side selection fold: keep the current best
entry unless the new entry has a strictly lower priority. -/
def selStep (acc : Option AvailEntry) (e : AvailEntry) : Option AvailEntry :=
  match acc with
  | none => some e
  | some m => if e.2.1.priority < m.2.1.priority then some e else some m

/-- Statement of the claim's selection rule, written from the spec's
words: the available model with the lowest priority integer, ties broken
in favor of the earlier declaration - i.e. a left fold keeping the
current entry unless a strictly lower priority appears. -/
def firstLowestPriority (l : List AvailEntry) : Option AvailEntry :=
  l.foldl selStep none

/-- Drops the literal `lit` from the head of `cs`, or fails: helper for
the PID-pattern matcher. -/
def dropLit : List Char → List Char → Option (List Char)
  | [], cs => some cs
  | _ :: _, [] => none
  | l :: ls, c :: cs => if l = c then dropLit ls cs else none

/-- Matches the anchored pattern `adding PID (\d+) as a tracked process`
at the head of `cs` and returns the captured number.  The digit run is
maximal, which coincides with the regex semantics because no shorter run
can let the following literal (starting with a space) match a digit. -/
def matchPidAt (cs : List Char) : Option Nat :=
  match dropLit "adding PID ".toList cs with
  | none => none
  | some rest =>
    let ds := rest.takeWhile Char.isDigit
    if ds.isEmpty then none
    else
      match dropLit " as a tracked process".toList (rest.dropWhile Char.isDigit) with
      | none => none
      | some _ => some (digitsToNat ds)

/-- Translation of `SteamLogHandler.PID_PATTERN` searching
(`steam_watcher.py` lines 22, 54-56): the leftmost occurrence of
`adding PID (\d+) as a tracked process` in a line, with the capture
converted by `int()`. -/
def pidPatternSearch (line : String) : Option Nat :=
  go line.toList
where
  go : List Char → Option Nat
    | [] => none
    | c :: rest =>
      match matchPidAt (c :: rest) with
      | some n => some n
      | none => go rest

/-- Translation of `SteamLogHandler._process_new_lines`
(`steam_watcher.py` lines 43-57).  The log file is modelled as its list
of complete lines and `self._file_position` as the count of consumed
lines (the source stores a byte offset; on a line-oriented log appended
in whole lines the two are in order-preserving correspondence).  The
handler seeks to the stored offset, reads the remaining lines, stores
`f.tell()` (which stays at the seek position when it was past the end),
and fires `_handle_game_launch` for every line the PID pattern matches.
Returns the new offset and the pids handled. -/
def process_new_lines (file : List String) (filePosition : Nat) :
    Nat × List Nat :=
  let lines := file.drop filePosition
  (max filePosition file.length, lines.filterMap pidPatternSearch)

/-- Sequence of `on_modified` deliveries: each event appends a chunk of
whole lines to the file and the handler processes the file from its
stored offset.  Returns the final offset and the concatenation of all
pids handled. -/
def runAppends (filePosition : Nat) (file : List String) :
    List (List String) → Nat × List Nat
  | [] => (filePosition, [])
  | chunk :: rest =>
    let file' := file ++ chunk
    let pr := process_new_lines file' filePosition
    let tail := runAppends pr.1 file' rest
    (tail.1, pr.2 ++ tail.2)

/-- Translation of `SteamLogHandler._handle_game_launch`
(`steam_watcher.py` lines 59-80) restricted to the GameSession set: a
pid already tracked, or whose process no longer exists, is ignored;
otherwise the launch callback fires, a monitor thread is started and the
pid is recorded in `_running_games`. -/
def handle_game_launch (procExists : Nat → Bool) (runningGames : List Nat)
    (pid : Nat) : List Nat :=
  if pid ∈ runningGames then runningGames
  else if procExists pid then runningGames ++ [pid]
  else runningGames

/-- Translation of `SteamWatcher._on_game_exit` (`steam_watcher.py`
lines 181-198), reduced to whether the restore action (resolve model,
start server, rewrite agent config to local) fires: it no-ops unless
`restart_ai_after_game` is set and the GameSession set is empty at the
time of the call. -/
def on_game_exit_restores (restartAfter : Bool) (runningGames : List Nat) :
    Bool :=
  if ¬ restartAfter then false
  else if ¬ runningGames.isEmpty then false
  else true

/-- Translation of `SteamLogHandler._monitor_game_process`
(`steam_watcher.py` lines 82-92) at the moment the monitored process
exits: if the pid is still tracked it is deleted from `_running_games`
first, and only then is `on_game_exit` invoked (which therefore sees the
set without this pid).  Returns the new GameSession set and whether the
restore fired. -/
def monitor_game_exit (restartAfter : Bool) (runningGames : List Nat)
    (pid : Nat) : List Nat × Bool :=
  if pid ∈ runningGames then
    let remaining := runningGames.erase pid
    (remaining, on_game_exit_restores restartAfter remaining)
  else (runningGames, false)

/-- JSON values, as `response.json()` produces them (Python dicts keep
their keys unique and in insertion order after parsing). -/
inductive Json where
  | null : Json
  | bool (b : Bool) : Json
  | num (n : Int) : Json
  | str (s : String) : Json
  | arr (xs : List Json) : Json
  | obj (kvs : List (String × Json)) : Json

/-- Python's `in` operator applied to a string needle: key membership on
dicts, element equality on lists (a string equals only an equal string),
substring on strings; `TypeError` otherwise. -/
def pyIn (needle : String) : Json → Except String Bool
  | Json.obj kvs => Except.ok (kvs.any (fun kv => kv.1 = needle))
  | Json.arr xs =>
    Except.ok (xs.any (fun j =>
      match j with
      | Json.str s => s = needle
      | _ => false))
  | Json.str s => Except.ok (containsSeg needle.toList s.toList)
  | _ => Except.error "TypeError"

/-- Python's `len()`: defined on lists, dicts and strings, `TypeError`
otherwise. -/
def pyLen : Json → Except String Nat
  | Json.arr xs => Except.ok xs.length
  | Json.obj kvs => Except.ok kvs.length
  | Json.str s => Except.ok s.length
  | _ => Except.error "TypeError"

/-- Python subscription `x[key]`: dict lookup with `KeyError`,
non-negative list indexing with `IndexError`, string indexing yielding a
one-character string; `TypeError` otherwise (indexing a dict with an
int, in particular, is a `KeyError` only if the int is a key - the
manager's dicts have string keys, so it fails). -/
def pyGetItem : Json → Json → Except String Json
  | Json.obj kvs, Json.str k =>
    match kvs.find? (fun kv => kv.1 = k) with
    | some kv => Except.ok kv.2
    | none => Except.error "KeyError"
  | Json.obj _, _ => Except.error "KeyError"
  | Json.arr xs, Json.num i =>
    if h : 0 ≤ i ∧ i.toNat < xs.length then Except.ok (xs.get ⟨i.toNat, h.2⟩)
    else Except.error "IndexError"
  | Json.str s, Json.num i =>
    let cs := s.toList
    if h : 0 ≤ i ∧ i.toNat < cs.length then
      Except.ok (Json.str (String.mk [cs.get ⟨i.toNat, h.2⟩]))
    else Except.error "IndexError"
  | _, _ => Except.error "TypeError"

/-- Translation of the non-stream response handling of
`LlamaServerManager.generate` (`server.py` lines 444-451): the
`"choices" in data and len(data["choices"]) > 0` guard with Python's
short-circuit `and`, then extraction of `choices[0]`'s
`message.content` or `text`, falling back to `{"content": ""}`. -/
def generate_extract (data : Json) : Except String Json := do
  let hasChoices ← pyIn "choices" data
  let guard ←
    if hasChoices then do
      let choices ← pyGetItem data (Json.str "choices")
      let n ← pyLen choices
      pure (decide (0 < n))
    else pure false
  if guard then do
    let choices ← pyGetItem data (Json.str "choices")
    let choice ← pyGetItem choices (Json.num 0)
    let hasMsg ← pyIn "message" choice
    if hasMsg then do
      let msg ← pyGetItem choice (Json.str "message")
      let content ← pyGetItem msg (Json.str "content")
      pure (Json.obj [("content", content)])
    else do
      let hasText ← pyIn "text" choice
      if hasText then do
        let t ← pyGetItem choice (Json.str "text")
        pure (Json.obj [("content", t)])
      else pure (Json.obj [("content", Json.str "")])
  else pure (Json.obj [("content", Json.str "")])

/-- Translation of `LlamaServerManager.generate` (`server.py` lines
401-451) over the modelled HTTP outcome: `RuntimeError` when the server
is not running, an `httpx` error when the POST does not return success,
the raw body in stream mode, and the extraction above otherwise. -/
def generate (running httpSuccess stream : Bool) (data : Json) :
    Except String Json :=
  if ¬ running then Except.error "RuntimeError"
  else if ¬ httpSuccess then Except.error "HTTPStatusError"
  else if stream then Except.ok data
  else generate_extract data

/-!  Theorems.  -/

/-- Concrete server configuration used by the concrete instances below. -/
def cfgEx : ServerConfig :=
  { llama_server_path := "/usr/bin/llama-server",
    models_dir := "/models", cache_dir := "/cache", log_dir := "/logs" }

/-- Concrete model definition used by the concrete instances below. -/
def dEx : ModelDefinition :=
  { id := "qwen", name := "Qwen", filename := some "qwen.gguf" }

/-- Variant of `dEx` that differs exactly in the sampling parameters
(`temperature`, `top_p`, `top_k`) and the memory and batching flags
(`mlock`, `mmap`, `cont_batching`). -/
def dExVaried : ModelDefinition :=
  { dEx with temperature := 7/5, top_p := 1/2, top_k := 7,
             mlock := false, mmap := false, cont_batching := false }

/-- Normal form of `_build_args` when `available_models` is absent. -/
theorem build_args_ok (cfg : ServerConfig) (d : ModelDefinition)
    (mp : String) (uc : Bool) (ea : Option (List String)) :
    build_args cfg d mp uc ea none =
      Except.ok (coreArgs cfg d mp ++
        (cacheTypeKArgs d ++ (cacheTypeVArgs d ++
          (flashAttnArgs d ++ (cacheDirArgs d ++ extraArgsList ea))))) := by
  simp [build_args, List.append_assoc]

/-- C1 counterexample: two model definitions that differ exactly in
temperature, top_p, top_k, mlock, mmap and cont_batching produce the
very same argument list, so the supervisor's start path includes no
argument derived from any of those fields, contradicting the claim at
this concrete input. -/
theorem c1_counterexample :
    build_args cfgEx dEx "/models/qwen.gguf" false none none =
        build_args cfgEx dExVaried "/models/qwen.gguf" false none none
      ∧ dEx.temperature ≠ dExVaried.temperature
      ∧ dEx.top_p ≠ dExVaried.top_p
      ∧ dEx.top_k ≠ dExVaried.top_k
      ∧ dEx.mlock ≠ dExVaried.mlock
      ∧ dEx.mmap ≠ dExVaried.mmap
      ∧ dEx.cont_batching ≠ dExVaried.cont_batching := by
  refine ⟨rfl, ?_, ?_, ?_, ?_, ?_, ?_⟩
  · show (3/5 : Rat) ≠ 7/5
    norm_num
  · show (19/20 : Rat) ≠ 1/2
    norm_num
  · decide
  · decide
  · decide
  · decide

/-- C1 (amended): the argument list contains arguments derived from the
context size, GPU layer count, thread count, batch and micro-batch
sizes, and, when set, the KV-cache quantization types and the
flash-attention flag; the sampling parameters and the mlock, mmap and
continuous-batching flags are not reflected in the arguments at all
(changing them leaves the argument list unchanged). -/
theorem c1_amended (cfg : ServerConfig) (d : ModelDefinition) (mp : String)
    (uc : Bool) (ea : Option (List String)) (t p : Rat) (k : Int)
    (b1 b2 b3 : Bool) :
    build_args cfg
        {d with temperature := t, top_p := p, top_k := k,
                mlock := b1, mmap := b2, cont_batching := b3} mp uc ea none =
      build_args cfg d mp uc ea none
    ∧ ∃ args, build_args cfg d mp uc ea none = Except.ok args
      ∧ (∃ u v, args = u ++ ["--ctx-size", toString d.ctx_size] ++ v)
      ∧ (∃ u v, args = u ++ ["--n-gpu-layers", toString d.n_gpu_layers] ++ v)
      ∧ (∃ u v, args = u ++ ["--threads", toString d.threads] ++ v)
      ∧ (∃ u v, args = u ++ ["--batch-size", toString d.batch_size] ++ v)
      ∧ (∃ u v, args = u ++ ["--ubatch-size", toString d.ubatch_size] ++ v)
      ∧ (d.flash_attn = true → ∃ u v, args = u ++ ["--flash-attn", "on"] ++ v)
      ∧ (∀ s, d.cache_type_k = some s → s ≠ "" →
          ∃ u v, args = u ++ ["--cache-type-k", s] ++ v)
      ∧ (∀ s, d.cache_type_v = some s → s ≠ "" →
          ∃ u v, args = u ++ ["--cache-type-v", s] ++ v) := by
  refine ⟨rfl, ?_⟩
  rw [build_args_ok]
  refine ⟨_, rfl, ?_, ?_, ?_, ?_, ?_, ?_, ?_, ?_⟩
  · exact ⟨[cfg.llama_server_path, "--model", mp, "--alias", d.id],
      ["--n-gpu-layers", toString d.n_gpu_layers, "--threads",
       toString d.threads, "--batch-size", toString d.batch_size,
       "--ubatch-size", toString d.ubatch_size, "--host", cfg.host,
       "--port", toString cfg.port] ++
        (cacheTypeKArgs d ++ (cacheTypeVArgs d ++
          (flashAttnArgs d ++ (cacheDirArgs d ++ extraArgsList ea)))),
      by simp [coreArgs]⟩
  · exact ⟨[cfg.llama_server_path, "--model", mp, "--alias", d.id,
      "--ctx-size", toString d.ctx_size],
      ["--threads", toString d.threads, "--batch-size",
       toString d.batch_size, "--ubatch-size", toString d.ubatch_size,
       "--host", cfg.host, "--port", toString cfg.port] ++
        (cacheTypeKArgs d ++ (cacheTypeVArgs d ++
          (flashAttnArgs d ++ (cacheDirArgs d ++ extraArgsList ea)))),
      by simp [coreArgs]⟩
  · exact ⟨[cfg.llama_server_path, "--model", mp, "--alias", d.id,
      "--ctx-size", toString d.ctx_size, "--n-gpu-layers",
      toString d.n_gpu_layers],
      ["--batch-size", toString d.batch_size, "--ubatch-size",
       toString d.ubatch_size, "--host", cfg.host, "--port",
       toString cfg.port] ++
        (cacheTypeKArgs d ++ (cacheTypeVArgs d ++
          (flashAttnArgs d ++ (cacheDirArgs d ++ extraArgsList ea)))),
      by simp [coreArgs]⟩
  · exact ⟨[cfg.llama_server_path, "--model", mp, "--alias", d.id,
      "--ctx-size", toString d.ctx_size, "--n-gpu-layers",
      toString d.n_gpu_layers, "--threads", toString d.threads],
      ["--ubatch-size", toString d.ubatch_size, "--host", cfg.host,
       "--port", toString cfg.port] ++
        (cacheTypeKArgs d ++ (cacheTypeVArgs d ++
          (flashAttnArgs d ++ (cacheDirArgs d ++ extraArgsList ea)))),
      by simp [coreArgs]⟩
  · exact ⟨[cfg.llama_server_path, "--model", mp, "--alias", d.id,
      "--ctx-size", toString d.ctx_size, "--n-gpu-layers",
      toString d.n_gpu_layers, "--threads", toString d.threads,
      "--batch-size", toString d.batch_size],
      ["--host", cfg.host, "--port", toString cfg.port] ++
        (cacheTypeKArgs d ++ (cacheTypeVArgs d ++
          (flashAttnArgs d ++ (cacheDirArgs d ++ extraArgsList ea)))),
      by simp [coreArgs]⟩
  · intro h
    exact ⟨coreArgs cfg d mp ++ (cacheTypeKArgs d ++ cacheTypeVArgs d),
      cacheDirArgs d ++ extraArgsList ea,
      by simp [flashAttnArgs, h, List.append_assoc]⟩
  · intro s hs hne
    exact ⟨coreArgs cfg d mp,
      cacheTypeVArgs d ++ (flashAttnArgs d ++
        (cacheDirArgs d ++ extraArgsList ea)),
      by simp [cacheTypeKArgs, hs, hne, List.append_assoc]⟩
  · intro s hs hne
    exact ⟨coreArgs cfg d mp ++ cacheTypeKArgs d,
      flashAttnArgs d ++ (cacheDirArgs d ++ extraArgsList ea),
      by simp [cacheTypeVArgs, hs, hne, List.append_assoc]⟩

/-- Witness for `c1_amended` at a concrete definition with flash
attention enabled and a KV-cache type set. -/
theorem c1_amended_witness :
    ∃ args, build_args cfgEx
        {dEx with cache_type_k := some "q8_0"} "/models/qwen.gguf"
        false none none = Except.ok args
      ∧ (∃ u v, args = u ++ ["--flash-attn", "on"] ++ v)
      ∧ (∃ u v, args = u ++ ["--cache-type-k", "q8_0"] ++ v) := by
  obtain ⟨-, args, hok, -, -, -, -, -, hfa, hck, -⟩ :=
    c1_amended cfgEx {dEx with cache_type_k := some "q8_0"}
      "/models/qwen.gguf" false none (3/5) (19/20) 40 true true true
  exact ⟨args, hok, hfa rfl, hck "q8_0" rfl (by decide)⟩

/-- Concrete model matching `a.gguf`, declared first, priority 2. -/
def m1 : ModelDefinition :=
  { id := "alpha", name := "Alpha", filename := some "a.gguf", priority := 2 }

/-- Concrete model matching `b.gguf`, declared second, priority 1. -/
def m2 : ModelDefinition :=
  { id := "beta", name := "Beta", filename := some "b.gguf", priority := 1 }

/-- Concrete model with the empty string as id, priority 5. -/
def mEmptyId : ModelDefinition :=
  { id := "", name := "Empty", filename := some "e.gguf", priority := 5 }

/-- The scan trace starts at the state the scan starts from. -/
theorem traceFrom_head (files : List String) (a : List AvailEntry)
    (ms : List ModelDefinition) : (traceFrom files a ms).head? = some a := by
  cases ms <;> rfl

/-- The scan trace ends at the fully folded scan result. -/
theorem traceFrom_getLast (files : List String) (ms : List ModelDefinition)
    (a : List AvailEntry) :
    (traceFrom files a ms).getLast? = some (ms.foldl (scanStep files) a) := by
  induction ms generalizing a with
  | nil => rfl
  | cons d ds ih =>
    cases ds with
    | nil => rfl
    | cons e es =>
      simpa [traceFrom, List.getLast?_cons_cons] using
        ih (scanStep files a d)

/-- C2 counterexample: refreshing a registry whose two configured models
both match files makes the empty map and a one-entry map observable
during the rescan, while the final result holds both entries - so a
reader can see a partially populated map, contradicting the claim at
this concrete input. -/
theorem c2_counterexample :
    ([] : List AvailEntry) ∈ refreshTrace true [m1, m2] ["a.gguf", "b.gguf"]
    ∧ [("alpha", m1, "a.gguf")] ∈
        refreshTrace true [m1, m2] ["a.gguf", "b.gguf"]
    ∧ refresh true [m1, m2] ["a.gguf", "b.gguf"] [] =
        [("alpha", m1, "a.gguf"), ("beta", m2, "b.gguf")] := by
  have h : refreshTrace true [m1, m2] ["a.gguf", "b.gguf"] =
      [[], [("alpha", m1, "a.gguf")],
       [("alpha", m1, "a.gguf"), ("beta", m2, "b.gguf")]] := rfl
  refine ⟨?_, ?_, rfl⟩ <;> rw [h] <;> simp

/-- C2 (amended): `refresh()` rebuilds `_available` in place rather than
swapping a snapshot: the observable trace starts at the cleared (empty)
map - so intermediate, partially populated states exist whenever any
model matches - and its last state is the full rescan result,
independent of the map contents before the refresh. -/
theorem c2_amended (dirExists : Bool) (models : List ModelDefinition)
    (files : List String) (avail : List AvailEntry) :
    (refreshTrace dirExists models files).head? = some []
    ∧ (refreshTrace dirExists models files).getLast? =
        some (refresh dirExists models files avail) := by
  cases dirExists with
  | false => exact ⟨rfl, rfl⟩
  | true =>
    refine ⟨traceFrom_head _ _ _, ?_⟩
    simpa [refresh, scan] using traceFrom_getLast files models []

/-- Head of a stable priority insertion. -/
theorem insertByPriority_head (x : AvailEntry) (l : List AvailEntry) :
    (insertByPriority x l).head? =
      some (l.head?.elim x
        (fun y => if y.2.1.priority < x.2.1.priority then y else x)) := by
  cases l with
  | nil => rfl
  | cons h t =>
    simp only [insertByPriority, List.head?_cons, Option.elim_some]
    split <;> simp

/-- Folding the claim-side selection step from a seeded best entry. -/
theorem foldl_selStep_some (l : List AvailEntry) (x : AvailEntry) :
    l.foldl selStep (some x) =
      some ((l.foldl selStep none).elim x
        (fun m => if m.2.1.priority < x.2.1.priority then m else x)) := by
  induction l generalizing x with
  | nil => rfl
  | cons a t ih =>
    show t.foldl selStep (selStep (some x) a) =
      some ((t.foldl selStep (some a)).elim x
        (fun m => if m.2.1.priority < x.2.1.priority then m else x))
    by_cases hax : a.2.1.priority < x.2.1.priority
    · have h1 : selStep (some x) a = some a := by simp [selStep, hax]
      rw [h1, ih a]
      cases ht : t.foldl selStep none with
      | none => simp [hax]
      | some m =>
        simp only [Option.elim_some, Option.some.injEq]
        split_ifs <;> first | rfl | omega
    · have h1 : selStep (some x) a = some x := by simp [selStep, hax]
      rw [h1, ih x, ih a]
      cases ht : t.foldl selStep none with
      | none => simp [hax]
      | some m =>
        simp only [Option.elim_some, Option.some.injEq]
        split_ifs <;> first | rfl | omega

/-- The head of the stable priority sort is the earliest entry of lowest
priority. -/
theorem sortByPriority_head (l : List AvailEntry) :
    (sortByPriority l).head? = firstLowestPriority l := by
  induction l with
  | nil => rfl
  | cons x xs ih =>
    show (insertByPriority x (sortByPriority xs)).head? = _
    rw [insertByPriority_head, ih]
    have h2 : firstLowestPriority (x :: xs) = xs.foldl selStep (some x) := rfl
    rw [h2, foldl_selStep_some]
    rfl

/-- The fallback branch of `get_auto_selected_model` computes the
claim-side selection rule. -/
theorem fallback_eq_firstLowest (avail : List AvailEntry) :
    (if avail.isEmpty then none else (sortByPriority avail).head?) =
      firstLowestPriority avail := by
  cases avail with
  | nil => rfl
  | cons x xs => simpa using sortByPriority_head (x :: xs)

/-- A successful dict lookup implies `is_model_available`. -/
theorem is_model_available_of_lookup (avail : List AvailEntry) (did : String)
    (dp : ModelDefinition × String) (h : availLookup avail did = some dp) :
    is_model_available avail did = true := by
  unfold availLookup at h
  rcases Option.map_eq_some'.mp h with ⟨kv, hfind, -⟩
  have hmem := List.mem_of_find?_eq_some hfind
  have hp := List.find?_some hfind
  unfold is_model_available
  rw [List.any_eq_true]
  exact ⟨kv, hmem, hp⟩

/-- C5 counterexample: with the configured default model id equal to the
empty string and a model with that id present in the snapshot, autoSelect
does not return it (Python's `if default_id and ...` treats the empty
string as falsy) but falls through to the priority sort, contradicting
the claim at this concrete input. -/
theorem c5_counterexample :
    is_model_available
        [("", mEmptyId, "e.gguf"), ("beta", m2, "b.gguf")] "" = true
    ∧ get_auto_selected_model (some "")
        [("", mEmptyId, "e.gguf"), ("beta", m2, "b.gguf")] =
        some ("beta", m2, "b.gguf") :=
  ⟨rfl, rfl⟩

/-- C5 (amended): if the configured default model id is non-empty and
present in the snapshot, autoSelect returns it regardless of priorities;
otherwise (no default, empty default, or default not available) it
returns the available model with the lowest priority integer, ties broken
in favor of the earlier declaration, and `none` on an empty snapshot
(`firstLowestPriority` returns `none` exactly then). -/
theorem c5_amended (dm : Option String) (avail : List AvailEntry) :
    (∀ did d p, dm = some did → did ≠ "" →
        availLookup avail did = some (d, p) →
        get_auto_selected_model dm avail = some (did, d, p))
    ∧ ((dm = none ∨ dm = some "" ∨
          ∀ did, dm = some did → is_model_available avail did = false) →
        get_auto_selected_model dm avail = firstLowestPriority avail) := by
  constructor
  · intro did d p hdm hne hlk
    subst hdm
    have hav := is_model_available_of_lookup avail did (d, p) hlk
    simp [get_auto_selected_model, hne, hav, hlk]
  · intro hcase
    rcases hcase with h | h | h
    · subst h
      simpa [get_auto_selected_model] using fallback_eq_firstLowest avail
    · subst h
      simpa [get_auto_selected_model] using fallback_eq_firstLowest avail
    · rcases dm with - | did
      · simpa [get_auto_selected_model] using fallback_eq_firstLowest avail
      · have hfalse := h did rfl
        simpa [get_auto_selected_model, hfalse] using
          fallback_eq_firstLowest avail

/-- Witness for `c5_amended`: a present non-empty default is returned,
and with no default the selection equals the claim-side rule. -/
theorem c5_amended_witness :
    get_auto_selected_model (some "beta") [("beta", m2, "b.gguf")] =
        some ("beta", m2, "b.gguf")
    ∧ get_auto_selected_model none
        [("alpha", m1, "a.gguf"), ("beta", m2, "b.gguf")] =
        firstLowestPriority [("alpha", m1, "a.gguf"), ("beta", m2, "b.gguf")] :=
  ⟨(c5_amended (some "beta") [("beta", m2, "b.gguf")]).1 "beta" m2 "b.gguf"
      rfl (by decide) rfl,
   (c5_amended none [("alpha", m1, "a.gguf"), ("beta", m2, "b.gguf")]).2
      (Or.inl rfl)⟩

/-- C6: the monitor thread deletes the exiting pid from the GameSession
set before invoking the exit hook, and the hook's restore action fires
only when the set it then sees is empty: whenever the restore fires the
set is empty, the exit of a session while another session remains
performs no restore, and the exit of the last remaining session (with
restart enabled) does restore. -/
theorem c6_restore_only_when_empty (restartAfter : Bool)
    (runningGames : List Nat) (pid : Nat) :
    ((monitor_game_exit restartAfter runningGames pid).2 = true →
      (monitor_game_exit restartAfter runningGames pid).1 = [])
    ∧ (∀ q, q ∈ runningGames → q ≠ pid →
        (monitor_game_exit restartAfter runningGames pid).2 = false)
    ∧ (restartAfter = true → runningGames = [pid] →
        monitor_game_exit restartAfter runningGames pid = ([], true)) := by
  refine ⟨?_, ?_, ?_⟩
  · intro hfired
    by_cases hp : pid ∈ runningGames
    · simp only [monitor_game_exit, hp, if_true] at hfired ⊢
      simp only [on_game_exit_restores] at hfired
      by_cases h1 : restartAfter
      · by_cases h2 : (runningGames.erase pid).isEmpty
        · exact List.isEmpty_iff.mp h2
        · simp [h1, h2] at hfired
      · simp [h1] at hfired
    · simp [monitor_game_exit, hp] at hfired
  · intro q hq hqp
    by_cases hp : pid ∈ runningGames
    · have hmem : q ∈ runningGames.erase pid :=
        (List.mem_erase_of_ne hqp).mpr hq
      have hne : (runningGames.erase pid).isEmpty = false := by
        cases he : runningGames.erase pid with
        | nil => rw [he] at hmem; simp at hmem
        | cons a l => rfl
      simp [monitor_game_exit, hp, on_game_exit_restores, hne]
    · simp [monitor_game_exit, hp]
  · intro hr hlist
    subst hlist
    simp [monitor_game_exit, on_game_exit_restores, hr]

/-- Witness for `c6_restore_only_when_empty`: sessions 100 and 200
overlap; the exit of 100 fires no restore, the exit of 200 restores. -/
theorem c6_witness :
    handle_game_launch (fun _ => true)
        (handle_game_launch (fun _ => true) [] 100) 200 = [100, 200]
    ∧ (monitor_game_exit true [100, 200] 100).2 = false
    ∧ (monitor_game_exit true [100, 200] 100).1 = [200]
    ∧ monitor_game_exit true [200] 200 = ([], true) :=
  ⟨rfl,
   (c6_restore_only_when_empty true [100, 200] 100).2.1 200 (by decide)
     (by decide),
   rfl,
   (c6_restore_only_when_empty true [200] 200).2.2 rfl rfl⟩

/-- Processing a run of file-change notifications from a fully consumed
offset handles the lines of each appended chunk exactly once and ends
with the offset at the new end of file. -/
theorem runAppends_consumed (chunks : List (List String))
    (file : List String) :
    (runAppends file.length file chunks).2 =
        chunks.flatten.filterMap pidPatternSearch
    ∧ (runAppends file.length file chunks).1 =
        file.length + chunks.flatten.length := by
  induction chunks generalizing file with
  | nil => simp [runAppends]
  | cons c cs ih =>
    have hdrop : (file ++ c).drop file.length = c := List.drop_left file c
    have hmax : max file.length (file ++ c).length = (file ++ c).length :=
      Nat.max_eq_right (by simp)
    obtain ⟨ih2, ih1⟩ := ih (file ++ c)
    constructor
    · simp only [runAppends, process_new_lines, hdrop, hmax]
      rw [ih2]
      simp
    · simp only [runAppends, process_new_lines, hdrop, hmax]
      rw [ih1]
      simp
      omega

/-- C9: the watched-log processing is idempotent over already-seen
content - a notification at a fully consumed offset yields zero launch
callbacks and leaves the offset unchanged, the stored offset never
decreases, and across any sequence of notifications appending whole
lines each appended line is matched against the PID pattern exactly
once. -/
theorem c9_idempotent_processing (file : List String) (pos : Nat)
    (chunks : List (List String)) :
    process_new_lines file file.length = (file.length, [])
    ∧ pos ≤ (process_new_lines file pos).1
    ∧ (runAppends file.length file chunks).2 =
        chunks.flatten.filterMap pidPatternSearch := by
  refine ⟨?_, ?_, (runAppends_consumed chunks file).1⟩
  · simp [process_new_lines]
  · simp [process_new_lines]

/-- C10: a non-stream HTTP-success chat-completion response whose body
has no `choices` key, an empty `choices` array, or a first choice object
with neither a `message` nor a `text` key, makes `generate()` return
`{"content": ""}` instead of raising. -/
theorem c10_empty_choices_fallback (kvs : List (String × Json))
    (h : kvs.find? (fun kv => kv.1 = "choices") = none
      ∨ (∃ kv, kvs.find? (fun kv => kv.1 = "choices") = some kv
          ∧ kv.2 = Json.arr [])
      ∨ (∃ kv choiceKvs rest,
          kvs.find? (fun kv => kv.1 = "choices") = some kv
          ∧ kv.2 = Json.arr (Json.obj choiceKvs :: rest)
          ∧ ∀ p ∈ choiceKvs, p.1 ≠ "message" ∧ p.1 ≠ "text")) :
    generate true true false (Json.obj kvs) =
      Except.ok (Json.obj [("content", Json.str "")]) := by
  have hgen : generate true true false (Json.obj kvs) =
      generate_extract (Json.obj kvs) := rfl
  rw [hgen]
  rcases h with h | ⟨kv, hfind, harr⟩ | ⟨kv, choiceKvs, rest, hfind, harr, hkeys⟩
  · have hany : kvs.any (fun kv => kv.1 = "choices") = false := by
      rw [List.any_eq_false]
      intro x hx
      simpa using List.find?_eq_none.mp h x hx
    simp [generate_extract, pyIn, hany, Bind.bind, Except.bind, Pure.pure,
      Except.pure]
  · have hany : kvs.any (fun kv => kv.1 = "choices") = true := by
      have hp := List.find?_some hfind
      rw [List.any_eq_true]
      exact ⟨kv, List.mem_of_find?_eq_some hfind, hp⟩
    simp [generate_extract, pyIn, pyGetItem, pyLen, hany, hfind, harr,
      Bind.bind, Except.bind, Pure.pure, Except.pure]
  · have hany : kvs.any (fun kv => kv.1 = "choices") = true := by
      have hp := List.find?_some hfind
      rw [List.any_eq_true]
      exact ⟨kv, List.mem_of_find?_eq_some hfind, hp⟩
    have hmsg : choiceKvs.any (fun kv => kv.1 = "message") = false := by
      rw [List.any_eq_false]
      intro x hx
      simpa using (hkeys x hx).1
    have htxt : choiceKvs.any (fun kv => kv.1 = "text") = false := by
      rw [List.any_eq_false]
      intro x hx
      simpa using (hkeys x hx).2
    simp [generate_extract, pyIn, pyGetItem, pyLen, hany, hfind, harr,
      hmsg, htxt, Bind.bind, Except.bind, Pure.pure, Except.pure]

/-- Witness for `c10_empty_choices_fallback`: a body whose first choice
carries only an `index` key yields `{"content": ""}`. -/
theorem c10_witness :
    generate true true false
        (Json.obj [("choices", Json.arr [Json.obj [("index", Json.num 0)]])]) =
      Except.ok (Json.obj [("content", Json.str "")]) :=
  c10_empty_choices_fallback
    [("choices", Json.arr [Json.obj [("index", Json.num 0)]])]
    (Or.inr (Or.inr ⟨("choices", Json.arr [Json.obj [("index", Json.num 0)]]),
      [("index", Json.num 0)], [], rfl, rfl, by
        intro p hp
        rw [List.mem_singleton] at hp
        subst hp
        exact ⟨by decide, by decide⟩⟩))

/-- Empty world: no PID record, no processes, health endpoint down. -/
def w0 : World :=
  { pidFile := none, procs := fun _ => none, healthOk := false,
    portOwner := none }

/-- Spawn environment whose launch yields pid 42 running the llama
server binary which never reports healthy. -/
def envEx : SpawnEnv :=
  { launch := some 42, fate := some { alive := true, name := "llama-server" },
    becomesHealthy := false }

/-- World with a stale PID record naming a dead process and no server
answering health. -/
def wStale : World :=
  { pidFile := some "77", procs := fun _ => none, healthOk := false,
    portOwner := none }

/-- World with no PID record but a server (started outside the
supervisor) answering the health endpoint. -/
def wHealthy : World :=
  { pidFile := none, procs := fun _ => none, healthOk := true,
    portOwner := none }

/-- World with a stale PID record and an externally started server
answering the health endpoint. -/
def wStaleHealthy : World :=
  { pidFile := some "999", procs := fun _ => none, healthOk := true,
    portOwner := none }

/-- World whose PID record names a live llama-server process. -/
def wLive : World :=
  { pidFile := some "42",
    procs := fun q =>
      if q = 42 then some { alive := true, name := "llama-server" } else none,
    healthOk := false, portOwner := none }

/-- A false `is_running()` leaves no PID record behind. -/
theorem is_running_false_pidFile (w : World) :
    (is_running w).1 = false → (is_running w).2.pidFile = none := by
  intro h
  cases hf : w.pidFile with
  | none => simp [is_running, hf]
  | some c =>
    cases hp : pyInt? c with
    | none => simp [is_running, hf, hp]
    | some pid =>
      cases hq : w.procs pid with
      | none => simp [is_running, hf, hp, hq]
      | some i =>
        by_cases hal : i.alive = true
        · by_cases hll : hasLlama i.name = true
          · simp [is_running, hf, hp, hq, hal, hll] at h
          · simp [is_running, hf, hp, hq, hal, hll]
        · simp [is_running, hf, hp, hq, hal]

/-- `is_running()` never changes the process table. -/
theorem is_running_procs (w : World) : (is_running w).2.procs = w.procs := by
  cases hf : w.pidFile with
  | none => simp [is_running, hf]
  | some c =>
    cases hp : pyInt? c with
    | none => simp [is_running, hf, hp]
    | some pid =>
      cases hq : w.procs pid with
      | none => simp [is_running, hf, hp, hq]
      | some i =>
        by_cases hal : i.alive = true
        · by_cases hll : hasLlama i.name = true
          · simp [is_running, hf, hp, hq, hal, hll]
          · simp [is_running, hf, hp, hq, hal, hll]
        · simp [is_running, hf, hp, hq, hal]

/-- `is_running()` either keeps the PID record or deletes it. -/
theorem is_running_pidFile_cases (w : World) :
    (is_running w).2.pidFile = w.pidFile ∨ (is_running w).2.pidFile = none := by
  cases hf : w.pidFile with
  | none => left; simp [is_running, hf]
  | some c =>
    cases hp : pyInt? c with
    | none => right; simp [is_running, hf, hp]
    | some pid =>
      cases hq : w.procs pid with
      | none => right; simp [is_running, hf, hp, hq]
      | some i =>
        by_cases hal : i.alive = true
        · by_cases hll : hasLlama i.name = true
          · left; simp [is_running, hf, hp, hq, hal, hll]
          · right; simp [is_running, hf, hp, hq, hal, hll]
        · right; simp [is_running, hf, hp, hq, hal]

/-- C4: a PID record naming a dead process, or a live process whose name
does not contain "llama", is deleted by a single `is_running()` call;
and when additionally no server answers the health endpoint the call
returns false. -/
theorem c4_self_heal (w : World) (c : String) (pid : Nat)
    (hf : w.pidFile = some c) (hp : pyInt? c = some pid)
    (hdead : w.procs pid = none
      ∨ ∃ i, w.procs pid = some i
          ∧ (i.alive = false ∨ hasLlama i.name = false)) :
    (is_running w).2.pidFile = none
    ∧ (w.healthOk = false → (is_running w).1 = false) := by
  rcases hdead with h | ⟨i, hi, hcase⟩
  · constructor
    · simp [is_running, hf, hp, h]
    · intro hh
      simp [is_running, hf, hp, h, hh]
  · rcases hcase with ha | hn
    · constructor
      · simp [is_running, hf, hp, hi, ha]
      · intro hh
        simp [is_running, hf, hp, hi, ha]
    · by_cases hal : i.alive = true
      · constructor
        · simp [is_running, hf, hp, hi, hal, hn]
        · intro hh
          simp [is_running, hf, hp, hi, hal, hn]
      · constructor
        · simp [is_running, hf, hp, hi, hal]
        · intro hh
          simp [is_running, hf, hp, hi, hal]

/-- Witness for `c4_self_heal`: a stale record naming dead pid 77 with
the health endpoint down is deleted and the call reports not running. -/
theorem c4_witness :
    (is_running wStale).2.pidFile = none ∧ (is_running wStale).1 = false := by
  obtain ⟨h1, h2⟩ := c4_self_heal wStale "77" 77 rfl rfl (Or.inl rfl)
  exact ⟨h1, h2 rfl⟩

/-- C7 counterexample: when a server is already running (here one
started outside the supervisor, answering the health endpoint),
`start()` with a nonexistent model path returns success, not failure,
contradicting the claim at this concrete input. -/
theorem c7_counterexample :
    (is_running wHealthy).1 = true
    ∧ start cfgEx envEx false dEx false "/models/missing.gguf" true false
        none none none wHealthy = Except.ok (true, wHealthy) :=
  ⟨rfl, rfl⟩

/-- C7 (amended): when the running check reports the server not running,
`start()` with a nonexistent model path returns failure, spawns no
process, and leaves no PID record. -/
theorem c7_missing_path (cfg : ServerConfig) (env : SpawnEnv)
    (pw : Bool) (d : ModelDefinition) (mp : String) (bg uc : Bool)
    (ea : Option (List String)) (tm : Option Nat)
    (am : Option (List (String × ModelDefinition × String))) (w : World)
    (hrun : (is_running w).1 = false) :
    start cfg env pw d false mp bg uc ea tm am w =
        Except.ok (false, (is_running w).2)
    ∧ (is_running w).2.pidFile = none
    ∧ (is_running w).2.procs = w.procs := by
  refine ⟨?_, is_running_false_pidFile w hrun, is_running_procs w⟩
  simp [start, hrun]

/-- Witness for `c7_missing_path` at the empty world. -/
theorem c7_witness :
    start cfgEx envEx false dEx false "/models/missing.gguf" true false
        none none none w0 = Except.ok (false, (is_running w0).2)
    ∧ (is_running w0).2.pidFile = none
    ∧ (is_running w0).2.procs = w0.procs :=
  c7_missing_path cfgEx envEx false dEx "/models/missing.gguf" true false
    none none none w0 rfl

/-- C8 counterexample: with a server already running (an external one
answering health) and a stale PID record, `start()` returns success and
spawns nothing, but the running check's self-heal deletes the PID
record, so the record is modified - contradicting the claim at this
concrete input. -/
theorem c8_counterexample :
    (is_running wStaleHealthy).1 = true
    ∧ start cfgEx envEx false dEx true "/models/qwen.gguf" true false
        none none none wStaleHealthy =
        Except.ok (true, {wStaleHealthy with pidFile := none})
    ∧ ({wStaleHealthy with pidFile := none} : World).pidFile ≠
        wStaleHealthy.pidFile := by
  refine ⟨rfl, rfl, ?_⟩
  simp [wStaleHealthy]

/-- A PID record naming a live process whose name contains "llama"
makes `is_running()` report true and leave the world untouched. -/
theorem is_running_live (w : World) (c : String) (pid : Nat) (i : ProcInfo)
    (hf : w.pidFile = some c) (hp : pyInt? c = some pid)
    (hq : w.procs pid = some i) (hal : i.alive = true)
    (hll : hasLlama i.name = true) :
    is_running w = (true, w) := by
  simp [is_running, hf, hp, hq, hal, hll]

/-- C8 (amended): when the running check reports the server already
running, `start()` returns success for every argument combination
without spawning a second process; the PID record is unmodified whenever
it names a live process matching the server binary, and in every case it
is either untouched or - when it was stale - deleted by the check's
self-heal. -/
theorem c8_already_running (cfg : ServerConfig) (env : SpawnEnv)
    (pw : Bool) (d : ModelDefinition) (pe : Bool) (mp : String)
    (bg uc : Bool) (ea : Option (List String)) (tm : Option Nat)
    (am : Option (List (String × ModelDefinition × String))) (w : World)
    (hrun : (is_running w).1 = true) :
    start cfg env pw d pe mp bg uc ea tm am w =
        Except.ok (true, (is_running w).2)
    ∧ (is_running w).2.procs = w.procs
    ∧ ((is_running w).2.pidFile = w.pidFile
        ∨ (is_running w).2.pidFile = none)
    ∧ (∀ c pid i, w.pidFile = some c → pyInt? c = some pid →
        w.procs pid = some i → i.alive = true → hasLlama i.name = true →
        (is_running w).2.pidFile = w.pidFile) :=
  ⟨by simp [start, hrun], is_running_procs w, is_running_pidFile_cases w,
   fun c pid i hf hp hq hal hll => by
     rw [is_running_live w c pid i hf hp hq hal hll]⟩

/-- Witness for `c8_already_running` at a world whose PID record names a
live llama-server process: in particular the PID record is unchanged. -/
theorem c8_witness :
    start cfgEx envEx false dEx true "/models/qwen.gguf" true false
        none none none wLive = Except.ok (true, (is_running wLive).2)
    ∧ (is_running wLive).2.procs = wLive.procs
    ∧ ((is_running wLive).2.pidFile = wLive.pidFile
        ∨ (is_running wLive).2.pidFile = none)
    ∧ (is_running wLive).2.pidFile = wLive.pidFile := by
  obtain ⟨h1, h2, h3, h4⟩ :=
    c8_already_running cfgEx envEx false dEx true "/models/qwen.gguf" true
      false none none none wLive rfl
  exact ⟨h1, h2, h3,
    h4 "42" 42 { alive := true, name := "llama-server" } rfl rfl rfl rfl rfl⟩

/-- C3 (code bug): evaluating a background start that never becomes
healthy.  With the `timeout` argument omitted (`none`) - as every caller
in the repository does - the source reads the nonexistent
`ServerConfig.start_timeout` after spawning and writing the PID record;
the `AttributeError` is caught by `start()`, which returns failure while
the spawned process is still alive and the PID record still exists.
With an explicit timeout the claimed behaviour does hold: failure,
teardown, and no PID record. -/
theorem c3_background_timeout :
    (∃ w1, start cfgEx envEx false dEx true "/models/qwen.gguf" true false
        none none none w0 = Except.ok (false, w1)
      ∧ w1.pidFile = some "42"
      ∧ w1.procs 42 = some { alive := true, name := "llama-server" })
    ∧ (∃ w2, start cfgEx envEx false dEx true "/models/qwen.gguf" true false
        none (some 60) none w0 = Except.ok (false, w2)
      ∧ w2.pidFile = none
      ∧ w2.procs 42 = none) :=
  ⟨⟨_, rfl, rfl, rfl⟩, ⟨_, rfl, rfl, rfl⟩⟩

end LocalAIManager
